import Mathlib

/-!
Verification of the face-verifier pipeline (`verify.js`).

The JavaScript source is shallowly embedded: JS numbers are modelled as
exact rationals `ℚ` (all operations the claims touch — `+`, `-`, `*`, `/`,
`Math.max`, `Math.min`, `Math.floor`, comparisons — are exact on the inputs
considered), external effects (filesystem, image decoding, the face-api.js
model) are modelled by an explicit environment record, and the observable
side effects of a run (decode attempts, detection attempts, file writes,
report persistence) are collected in an event trace.
-/

namespace FaceVerifier

/-- The static configuration object `CONFIG` of `verify.js` (lines 11–16),
as a record so that theorems can quantify over configurations.  The
`baseOutputDir` path field is kept for completeness; it is only used by
`main`, which is outside the verified core. -/
structure Config where
  distanceThreshold : ℚ
  zoomOutFactor : ℚ
  baseOutputDir : String
  faceQuality : ℚ
deriving DecidableEq

/-- The concrete configuration values of `verify.js` lines 11–16. -/
def CONFIG : Config :=
  { distanceThreshold := 0.6
    zoomOutFactor := 0.3
    baseOutputDir := "verification_reports"
    faceQuality := 0.8 }

/-- A bounding box `{x, y, width, height}` with JS-number (rational)
coordinates, as produced by the detector. -/
structure BoundingBox where
  x : ℚ
  y : ℚ
  width : ℚ
  height : ℚ
deriving DecidableEq

/-- A bounding box with integer coordinates, the codomain of
`calculateZoomedOutBox` (its four fields go through `Math.floor`). -/
structure IntBox where
  x : ℤ
  y : ℤ
  width : ℤ
  height : ℤ
deriving DecidableEq

/-- View an integer-coordinate box as a JS-number box. -/
def IntBox.toBox (b : IntBox) : BoundingBox :=
  { x := (b.x : ℚ), y := (b.y : ℚ), width := (b.width : ℚ), height := (b.height : ℚ) }

/-- The BoundingBox invariant of the spec's data model: nonnegative origin,
positive extent, contained in the image. -/
def BoxInvariant (b : BoundingBox) (imageWidth imageHeight : ℚ) : Prop :=
  0 ≤ b.x ∧ 0 ≤ b.y ∧ 0 < b.width ∧ 0 < b.height ∧
    b.x + b.width ≤ imageWidth ∧ b.y + b.height ≤ imageHeight

/-- `calculateZoomedOutBox` (verify.js lines 38–54): enlarge `box` by
`zoomFactor` per axis, clamp the origin at 0, cap the extent at the image
border, and floor every coordinate (`Math.floor` is floor towards `-∞`,
which is `Int.floor`). -/
def calculateZoomedOutBox (box : BoundingBox) (zoomFactor imageWidth imageHeight : ℚ) :
    IntBox :=
  let zoomOutX := box.width * zoomFactor
  let zoomOutY := box.height * zoomFactor
  let newX := max 0 (box.x - zoomOutX / 2)
  let newY := max 0 (box.y - zoomOutY / 2)
  let newWidth := min (imageWidth - newX) (box.width + zoomOutX)
  let newHeight := min (imageHeight - newY) (box.height + zoomOutY)
  { x := ⌊newX⌋, y := ⌊newY⌋, width := ⌊newWidth⌋, height := ⌊newHeight⌋ }

/-- C3: for a box satisfying the BoundingBox invariant, any zoom factor
`≥ 0` and positive integer image dimensions, `calculateZoomedOutBox`
returns a box with integer coordinates (its codomain is `IntBox`) that is
fully contained in the image: `0 ≤ x`, `0 ≤ y`, `x + width ≤ imageWidth`
and `y + height ≤ imageHeight`. -/
theorem calculateZoomedOutBox_contained (b : BoundingBox) (z : ℚ) (W H : ℕ)
    (hinv : BoxInvariant b (W : ℚ) (H : ℚ)) (hz : 0 ≤ z) (hW : 0 < W) (hH : 0 < H) :
    0 ≤ (calculateZoomedOutBox b z W H).x ∧
    0 ≤ (calculateZoomedOutBox b z W H).y ∧
    (calculateZoomedOutBox b z W H).x + (calculateZoomedOutBox b z W H).width ≤ (W : ℤ) ∧
    (calculateZoomedOutBox b z W H).y + (calculateZoomedOutBox b z W H).height ≤ (H : ℤ) := by
  obtain ⟨hx, hy, hw, hh, hxw, hyh⟩ := hinv
  unfold calculateZoomedOutBox
  simp only
  refine ⟨?_, ?_, ?_, ?_⟩
  · exact Int.floor_nonneg.2 (le_max_left _ _)
  · exact Int.floor_nonneg.2 (le_max_left _ _)
  · -- x-axis containment
    set nX : ℚ := max 0 (b.x - b.width * z / 2) with hnX
    have h1 : (⌊nX⌋ : ℚ) ≤ nX := Int.floor_le nX
    have h2 : (⌊min ((W : ℚ) - nX) (b.width + b.width * z)⌋ : ℚ) ≤ (W : ℚ) - nX :=
      le_trans (Int.floor_le _) (min_le_left _ _)
    have : (⌊nX⌋ : ℚ) + (⌊min ((W : ℚ) - nX) (b.width + b.width * z)⌋ : ℚ) ≤ (W : ℚ) := by
      linarith
    exact_mod_cast this
  · -- y-axis containment
    set nY : ℚ := max 0 (b.y - b.height * z / 2) with hnY
    have h1 : (⌊nY⌋ : ℚ) ≤ nY := Int.floor_le nY
    have h2 : (⌊min ((H : ℚ) - nY) (b.height + b.height * z)⌋ : ℚ) ≤ (H : ℚ) - nY :=
      le_trans (Int.floor_le _) (min_le_left _ _)
    have : (⌊nY⌋ : ℚ) + (⌊min ((H : ℚ) - nY) (b.height + b.height * z)⌋ : ℚ) ≤ (H : ℚ) := by
      linarith
    exact_mod_cast this

/-- C3 witness: the containment theorem applied at a concrete box, zoom
factor and image size. -/
theorem calculateZoomedOutBox_contained_witness :
    BoxInvariant ⟨1, 1, 2, 2⟩ ((10 : ℕ) : ℚ) ((10 : ℕ) : ℚ) ∧ 0 ≤ (1/2 : ℚ) ∧
      0 < 10 ∧ 0 < 10 ∧
      (0 ≤ (calculateZoomedOutBox ⟨1, 1, 2, 2⟩ (1/2) 10 10).x ∧
       0 ≤ (calculateZoomedOutBox ⟨1, 1, 2, 2⟩ (1/2) 10 10).y ∧
       (calculateZoomedOutBox ⟨1, 1, 2, 2⟩ (1/2) 10 10).x +
         (calculateZoomedOutBox ⟨1, 1, 2, 2⟩ (1/2) 10 10).width ≤ ((10 : ℕ) : ℤ) ∧
       (calculateZoomedOutBox ⟨1, 1, 2, 2⟩ (1/2) 10 10).y +
         (calculateZoomedOutBox ⟨1, 1, 2, 2⟩ (1/2) 10 10).height ≤ ((10 : ℕ) : ℤ)) :=
  ⟨by norm_num [BoxInvariant], by norm_num, by decide, by decide,
    calculateZoomedOutBox_contained ⟨1, 1, 2, 2⟩ (1/2) 10 10 (by norm_num [BoxInvariant])
      (by norm_num) (by decide) (by decide)⟩

/-- C5 counterexample: the box `{x := 1, y := 1, width := 1, height := 1}`
inside a 10×10 image with zoom factor `1/2` satisfies the BoundingBox
invariant, yet `calculateZoomedOutBox` returns `{x := 0, y := 0,
width := 1, height := 1}` (the flooring of `newX = 3/4` and
`newWidth = 3/2` loses the right edge), so the returned box does NOT
contain the original: `x + width = 1 < 2 = box.x + box.width`. -/
theorem calculateZoomedOutBox_contains_cex :
    BoxInvariant (IntBox.toBox ⟨1, 1, 1, 1⟩) 10 10 ∧ (0 : ℚ) ≤ 1/2 ∧
      ¬ ((calculateZoomedOutBox (IntBox.toBox ⟨1, 1, 1, 1⟩) (1/2) 10 10).x +
           (calculateZoomedOutBox (IntBox.toBox ⟨1, 1, 1, 1⟩) (1/2) 10 10).width ≥
         (1 : ℤ) + 1) := by
  have hbox : calculateZoomedOutBox (IntBox.toBox ⟨1, 1, 1, 1⟩) (1/2) 10 10 =
      ⟨0, 0, 1, 1⟩ := by
    unfold calculateZoomedOutBox IntBox.toBox
    norm_num
  refine ⟨by norm_num [BoxInvariant, IntBox.toBox], by norm_num, ?_⟩
  rw [hbox]
  decide

/-- C5 amended: for an integer-coordinate box satisfying the BoundingBox
invariant and any zoom factor `≥ 0`, the returned box still contains the
original on the top/left sides (`x ≤ box.x`, `y ≤ box.y`), but on the
right/bottom sides only up to one pixel lost to flooring:
`x + width ≥ box.x + box.width - 1` and
`y + height ≥ box.y + box.height - 1`. -/
theorem calculateZoomedOutBox_contains_amended (b : IntBox) (z W H : ℚ)
    (hinv : BoxInvariant b.toBox W H) (hz : 0 ≤ z) :
    (calculateZoomedOutBox b.toBox z W H).x ≤ b.x ∧
    (calculateZoomedOutBox b.toBox z W H).y ≤ b.y ∧
    b.x + b.width - 1 ≤
      (calculateZoomedOutBox b.toBox z W H).x + (calculateZoomedOutBox b.toBox z W H).width ∧
    b.y + b.height - 1 ≤
      (calculateZoomedOutBox b.toBox z W H).y + (calculateZoomedOutBox b.toBox z W H).height := by
  obtain ⟨hx, hy, hw, hh, hxw, hyh⟩ := hinv
  unfold calculateZoomedOutBox IntBox.toBox at *
  simp only at *
  have hzx : 0 ≤ (b.width : ℚ) * z := mul_nonneg hw.le hz
  have hzy : 0 ≤ (b.height : ℚ) * z := mul_nonneg hh.le hz
  refine ⟨?_, ?_, ?_, ?_⟩
  · have : max 0 ((b.x : ℚ) - (b.width : ℚ) * z / 2) ≤ (b.x : ℚ) :=
      max_le hx (by linarith)
    have := Int.floor_le_floor this
    rwa [Int.floor_intCast] at this
  · have : max 0 ((b.y : ℚ) - (b.height : ℚ) * z / 2) ≤ (b.y : ℚ) :=
      max_le hy (by linarith)
    have := Int.floor_le_floor this
    rwa [Int.floor_intCast] at this
  · set a : ℚ := max 0 ((b.x : ℚ) - (b.width : ℚ) * z / 2) with ha
    set w : ℚ := min (W - a) ((b.width : ℚ) + (b.width : ℚ) * z) with hwdef
    have haLB : (b.x : ℚ) - (b.width : ℚ) * z / 2 ≤ a := le_max_right _ _
    have hsum : (b.x : ℚ) + (b.width : ℚ) ≤ a + w := by
      have h1 : (b.x : ℚ) + (b.width : ℚ) - a ≤ W - a := by linarith
      have h2 : (b.x : ℚ) + (b.width : ℚ) - a ≤ (b.width : ℚ) + (b.width : ℚ) * z := by
        linarith
      have : (b.x : ℚ) + (b.width : ℚ) - a ≤ w := le_min h1 h2
      linarith
    have hfa : a - 1 < (⌊a⌋ : ℚ) := Int.sub_one_lt_floor a
    have hfw : w - 1 < (⌊w⌋ : ℚ) := Int.sub_one_lt_floor w
    have : ((b.x + b.width - 2 : ℤ) : ℚ) < ((⌊a⌋ + ⌊w⌋ : ℤ) : ℚ) := by
      push_cast
      linarith
    have := Int.cast_lt.mp this
    omega
  · set a : ℚ := max 0 ((b.y : ℚ) - (b.height : ℚ) * z / 2) with ha
    set w : ℚ := min (H - a) ((b.height : ℚ) + (b.height : ℚ) * z) with hwdef
    have haLB : (b.y : ℚ) - (b.height : ℚ) * z / 2 ≤ a := le_max_right _ _
    have hsum : (b.y : ℚ) + (b.height : ℚ) ≤ a + w := by
      have h1 : (b.y : ℚ) + (b.height : ℚ) - a ≤ H - a := by linarith
      have h2 : (b.y : ℚ) + (b.height : ℚ) - a ≤ (b.height : ℚ) + (b.height : ℚ) * z := by
        linarith
      have : (b.y : ℚ) + (b.height : ℚ) - a ≤ w := le_min h1 h2
      linarith
    have hfa : a - 1 < (⌊a⌋ : ℚ) := Int.sub_one_lt_floor a
    have hfw : w - 1 < (⌊w⌋ : ℚ) := Int.sub_one_lt_floor w
    have : ((b.y + b.height - 2 : ℤ) : ℚ) < ((⌊a⌋ + ⌊w⌋ : ℤ) : ℚ) := by
      push_cast
      linarith
    have := Int.cast_lt.mp this
    omega

/-- C5 amended witness: the amended containment theorem applied at the
counterexample input itself. -/
theorem calculateZoomedOutBox_contains_amended_witness :
    BoxInvariant (IntBox.toBox ⟨1, 1, 1, 1⟩) 10 10 ∧ (0 : ℚ) ≤ 1/2 ∧
      ((calculateZoomedOutBox (IntBox.toBox ⟨1, 1, 1, 1⟩) (1/2) 10 10).x ≤ 1 ∧
       (calculateZoomedOutBox (IntBox.toBox ⟨1, 1, 1, 1⟩) (1/2) 10 10).y ≤ 1 ∧
       (1 : ℤ) + 1 - 1 ≤
         (calculateZoomedOutBox (IntBox.toBox ⟨1, 1, 1, 1⟩) (1/2) 10 10).x +
           (calculateZoomedOutBox (IntBox.toBox ⟨1, 1, 1, 1⟩) (1/2) 10 10).width ∧
       (1 : ℤ) + 1 - 1 ≤
         (calculateZoomedOutBox (IntBox.toBox ⟨1, 1, 1, 1⟩) (1/2) 10 10).y +
           (calculateZoomedOutBox (IntBox.toBox ⟨1, 1, 1, 1⟩) (1/2) 10 10).height) :=
  ⟨by norm_num [BoxInvariant, IntBox.toBox], by norm_num,
    calculateZoomedOutBox_contains_amended ⟨1, 1, 1, 1⟩ (1/2) 10 10
      (by norm_num [BoxInvariant, IntBox.toBox]) (by norm_num)⟩

/-- C6: for a fixed box satisfying the BoundingBox invariant and fixed
image dimensions, the width and height returned by `calculateZoomedOutBox`
are monotone in the zoom factor: `0 ≤ z1 ≤ z2` implies the width and
height at `z2` are at least those at `z1`. -/
theorem calculateZoomedOutBox_monotone (b : BoundingBox) (z1 z2 W H : ℚ)
    (hinv : BoxInvariant b W H) (h0 : 0 ≤ z1) (h12 : z1 ≤ z2) :
    (calculateZoomedOutBox b z1 W H).width ≤ (calculateZoomedOutBox b z2 W H).width ∧
    (calculateZoomedOutBox b z1 W H).height ≤ (calculateZoomedOutBox b z2 W H).height := by
  obtain ⟨hx, hy, hw, hh, hxw, hyh⟩ := hinv
  unfold calculateZoomedOutBox
  simp only
  have hwz : b.width * z1 ≤ b.width * z2 := mul_le_mul_of_nonneg_left h12 hw.le
  have hhz : b.height * z1 ≤ b.height * z2 := mul_le_mul_of_nonneg_left h12 hh.le
  constructor
  · apply Int.floor_le_floor
    apply min_le_min
    · have : max 0 (b.x - b.width * z2 / 2) ≤ max 0 (b.x - b.width * z1 / 2) :=
        max_le_max le_rfl (by linarith)
      linarith
    · linarith
  · apply Int.floor_le_floor
    apply min_le_min
    · have : max 0 (b.y - b.height * z2 / 2) ≤ max 0 (b.y - b.height * z1 / 2) :=
        max_le_max le_rfl (by linarith)
      linarith
    · linarith

/-- C6 witness: monotonicity applied at a concrete box and zoom factors. -/
theorem calculateZoomedOutBox_monotone_witness :
    BoxInvariant ⟨1, 1, 2, 2⟩ 10 10 ∧ (0 : ℚ) ≤ 1/4 ∧ (1/4 : ℚ) ≤ 1/2 ∧
      ((calculateZoomedOutBox ⟨1, 1, 2, 2⟩ (1/4) 10 10).width ≤
         (calculateZoomedOutBox ⟨1, 1, 2, 2⟩ (1/2) 10 10).width ∧
       (calculateZoomedOutBox ⟨1, 1, 2, 2⟩ (1/4) 10 10).height ≤
         (calculateZoomedOutBox ⟨1, 1, 2, 2⟩ (1/2) 10 10).height) :=
  ⟨by norm_num [BoxInvariant], by norm_num, by norm_num,
    calculateZoomedOutBox_monotone ⟨1, 1, 2, 2⟩ (1/4) (1/2) 10 10
      (by norm_num [BoxInvariant]) (by norm_num) (by norm_num)⟩

/-- C10: for an integer-coordinate box satisfying the BoundingBox
invariant and any zoom factor `≥ 0`, the width and height returned by
`calculateZoomedOutBox` are at least the original box's width and height
(and in particular strictly positive). -/
theorem calculateZoomedOutBox_never_shrinks (b : IntBox) (z W H : ℚ)
    (hinv : BoxInvariant b.toBox W H) (hz : 0 ≤ z) :
    b.width ≤ (calculateZoomedOutBox b.toBox z W H).width ∧
    b.height ≤ (calculateZoomedOutBox b.toBox z W H).height ∧
    0 < (calculateZoomedOutBox b.toBox z W H).width ∧
    0 < (calculateZoomedOutBox b.toBox z W H).height := by
  obtain ⟨hx, hy, hw, hh, hxw, hyh⟩ := hinv
  unfold calculateZoomedOutBox IntBox.toBox at *
  simp only at *
  have hzx : 0 ≤ (b.width : ℚ) * z := mul_nonneg hw.le hz
  have hzy : 0 ≤ (b.height : ℚ) * z := mul_nonneg hh.le hz
  have hwpos : 0 < b.width := by exact_mod_cast hw
  have hhpos : 0 < b.height := by exact_mod_cast hh
  have hWwidth : b.width ≤
      ⌊min (W - max 0 ((b.x : ℚ) - (b.width : ℚ) * z / 2))
          ((b.width : ℚ) + (b.width : ℚ) * z)⌋ := by
    rw [Int.le_floor]
    refine le_min ?_ (by linarith)
    have haUB : max 0 ((b.x : ℚ) - (b.width : ℚ) * z / 2) ≤ (b.x : ℚ) :=
      max_le hx (by linarith)
    linarith
  have hHheight : b.height ≤
      ⌊min (H - max 0 ((b.y : ℚ) - (b.height : ℚ) * z / 2))
          ((b.height : ℚ) + (b.height : ℚ) * z)⌋ := by
    rw [Int.le_floor]
    refine le_min ?_ (by linarith)
    have haUB : max 0 ((b.y : ℚ) - (b.height : ℚ) * z / 2) ≤ (b.y : ℚ) :=
      max_le hy (by linarith)
    linarith
  exact ⟨hWwidth, hHheight, lt_of_lt_of_le hwpos hWwidth, lt_of_lt_of_le hhpos hHheight⟩

/-- C10 witness: the no-shrink theorem applied at a concrete box. -/
theorem calculateZoomedOutBox_never_shrinks_witness :
    BoxInvariant (IntBox.toBox ⟨2, 3, 4, 5⟩) 20 20 ∧ (0 : ℚ) ≤ 3/10 ∧
      ((4 : ℤ) ≤ (calculateZoomedOutBox (IntBox.toBox ⟨2, 3, 4, 5⟩) (3/10) 20 20).width ∧
       (5 : ℤ) ≤ (calculateZoomedOutBox (IntBox.toBox ⟨2, 3, 4, 5⟩) (3/10) 20 20).height ∧
       0 < (calculateZoomedOutBox (IntBox.toBox ⟨2, 3, 4, 5⟩) (3/10) 20 20).width ∧
       0 < (calculateZoomedOutBox (IntBox.toBox ⟨2, 3, 4, 5⟩) (3/10) 20 20).height) :=
  ⟨by norm_num [BoxInvariant, IntBox.toBox], by norm_num,
    calculateZoomedOutBox_never_shrinks ⟨2, 3, 4, 5⟩ (3/10) 20 20
      (by norm_num [BoxInvariant, IntBox.toBox]) (by norm_num)⟩

/-- Sum of squared componentwise differences of two descriptor vectors
(the radicand of the L2 distance). -/
def sumSqDiff (a b : List ℝ) : ℝ :=
  ((a.zip b).map fun p => (p.1 - p.2) ^ 2).sum

lemma sumSqDiff_comm (a : List ℝ) : ∀ b : List ℝ, sumSqDiff a b = sumSqDiff b a := by
  induction a with
  | nil => intro b; cases b <;> simp [sumSqDiff]
  | cons x xs ih =>
    intro b
    cases b with
    | nil => simp [sumSqDiff]
    | cons y ys =>
      have := ih ys
      simp only [sumSqDiff, List.zip_cons_cons, List.map_cons, List.sum_cons] at *
      rw [this]
      ring_nf

lemma sumSqDiff_self (a : List ℝ) : sumSqDiff a a = 0 := by
  induction a with
  | nil => simp [sumSqDiff]
  | cons x xs ih => simp only [sumSqDiff, List.zip_cons_cons, List.map_cons,
      List.sum_cons] at *; rw [ih]; ring

lemma sumSqDiff_nonneg (a b : List ℝ) : 0 ≤ sumSqDiff a b := by
  refine List.sum_nonneg ?_
  intro x hx
  obtain ⟨p, _, rfl⟩ := List.mem_map.1 hx
  exact sq_nonneg _

/-- Modelled from the spec: `faceapi.euclideanDistance` (called at
verify.js lines 208–211) lives in the external face-api.js library, whose
source is not part of this repository; per the spec, the distance is the
Euclidean (L2) distance between the two descriptor vectors. -/
noncomputable def euclideanDistance (a b : List ℝ) : ℝ :=
  Real.sqrt (sumSqDiff a b)

/-- C8: for descriptor vectors of equal dimension, the face distance is
symmetric in its two arguments, always nonnegative, and zero when the two
descriptors are equal. -/
theorem euclideanDistance_metric (a b : List ℝ) (h : a.length = b.length) :
    euclideanDistance a b = euclideanDistance b a ∧
    0 ≤ euclideanDistance a b ∧
    (a = b → euclideanDistance a b = 0) := by
  refine ⟨?_, Real.sqrt_nonneg _, ?_⟩
  · unfold euclideanDistance
    rw [sumSqDiff_comm]
  · rintro rfl
    unfold euclideanDistance
    rw [sumSqDiff_self, Real.sqrt_zero]

/-- C8 witness: the distance-metric theorem applied at two concrete
2-dimensional descriptors. -/
theorem euclideanDistance_metric_witness :
    ([1, 2] : List ℝ).length = ([3, 4] : List ℝ).length ∧
      (euclideanDistance [1, 2] [3, 4] = euclideanDistance [3, 4] [1, 2] ∧
       0 ≤ euclideanDistance [1, 2] [3, 4] ∧
       (([1, 2] : List ℝ) = [3, 4] → euclideanDistance [1, 2] [3, 4] = 0)) :=
  ⟨rfl, euclideanDistance_metric [1, 2] [3, 4] rfl⟩

/-- A decoded image; only its dimensions are observable to the verified
core (pixel data is opaque). -/
structure Image where
  width : ℚ
  height : ℚ
deriving DecidableEq

/-- The `detection` part of a face-api.js result: bounding box and score. -/
structure Detection where
  box : BoundingBox
  score : ℚ
deriving DecidableEq

/-- The result of
`detectSingleFace(img).withFaceLandmarks().withFaceDescriptor()`:
a detection, the landmark positions and the descriptor vector. -/
structure FaceResult where
  detection : Detection
  landmarks : List (ℚ × ℚ)
  descriptor : List ℚ
deriving DecidableEq

/-- The external collaborators of `runVerification`: the filesystem
(`fs.existsSync`), the image decoder (`canvas.loadImage`, which may fail),
the face-api.js model (zero-or-one primary detection per image), the
library distance function (`faceapi.euclideanDistance`, its JS float
result modelled as a rational), and the clock (`new Date()` /
`Date.now()`). -/
structure Env where
  fileExists : String → Bool
  loadImage : String → Option Image
  detectFace : Image → Option FaceResult
  euclideanDist : List ℚ → List ℚ → ℚ
  isoTimestamp : String
  nowMillis : ℕ

/-- The error taxonomy: one constructor per `throw new Error(...)` site of
`runVerification` (verify.js lines 170–206), plus decode failures
surfaced by `canvas.loadImage`.  Each constructor carries the data
interpolated into the corresponding JS message string. -/
inductive VerifyError
  /-- `Reference image not found: <path>` (line 171) -/
  | referenceNotFound (path : String)
  /-- `Query image not found: <path>` (line 174) -/
  | queryNotFound (path : String)
  /-- `canvas.loadImage(referenceImagePath)` rejected (line 177) -/
  | referenceLoadFailed (path : String)
  /-- `canvas.loadImage(queryImagePath)` rejected (line 178) -/
  | queryLoadFailed (path : String)
  /-- `Could not detect a face in the reference image` (line 191) -/
  | noFaceInReference
  /-- `Could not detect a face in the query image` (line 194) -/
  | noFaceInQuery
  /-- `Low detection score in reference image: <score>` (line 199) -/
  | lowScoreReference (score : ℚ)
  /-- `Low detection score in query image: <score>` (line 204) -/
  | lowScoreQuery (score : ℚ)
deriving DecidableEq

/-- The `result` sub-record of the report (verify.js lines 108–114). -/
structure VerificationResult where
  isMatch : Bool
  faceDistance : ℚ
  threshold : ℚ
  confidence : ℚ
  status : String
deriving DecidableEq

/-- A per-image section of the report (verify.js lines 115–130). -/
structure ImageReport where
  filename : String
  faceDetected : Bool
  detectionScore : ℚ
  faceFile : String
  coordinates : IntBox
  imageDimensions : Image
deriving DecidableEq

/-- The report assembled by `generateVerificationReport`
(verify.js lines 95–133). -/
structure VerificationReport where
  verificationId : String
  timestamp : String
  result : VerificationResult
  referenceImage : ImageReport
  queryImage : ImageReport
  outputDirectory : String
deriving DecidableEq

/-- The observable side effects of one run: decode attempts, detection
attempts, image-file writes, and the report write. -/
inductive Event
  | decode (path : String)
  | detect (path : String)
  | writeFile (path : String)
  | writeReport (report : VerificationReport)
deriving DecidableEq

/-- `path.basename`: the last `/`-separated component of a path. -/
def basename (p : String) : String :=
  (p.splitOn "/").getLastD p

/-- `path.join` restricted to two components. -/
def joinPath (a b : String) : String :=
  a ++ "/" ++ b

/-- The per-image metadata object literals the orchestrator passes to
`generateVerificationReport` (verify.js lines 242–260). -/
structure ImageMeta where
  imagePath : String
  faceDetected : Bool
  detectionScore : ℚ
  faceFile : String
  coordinates : IntBox
  imageDimensions : Image
deriving DecidableEq

/-- `generateVerificationReport` (verify.js lines 95–133).  The JS reads
the clock itself (`new Date().toISOString()`, `Date.now()`); here the
clock values come from the environment. -/
def generateVerificationReport (cfg : Config) (env : Env)
    (referenceData queryData : ImageMeta) (faceDistance : ℚ) (isMatch : Bool)
    (outputDir : String) : VerificationReport :=
  { verificationId := "verify_" ++ toString env.nowMillis
    timestamp := env.isoTimestamp
    result :=
      { isMatch := isMatch
        faceDistance := faceDistance
        threshold := cfg.distanceThreshold
        confidence := max 0 (1 - faceDistance / cfg.distanceThreshold)
        status := if isMatch then "VERIFIED" else "REJECTED" }
    referenceImage :=
      { filename := basename referenceData.imagePath
        faceDetected := referenceData.faceDetected
        detectionScore := referenceData.detectionScore
        faceFile := referenceData.faceFile
        coordinates := referenceData.coordinates
        imageDimensions := referenceData.imageDimensions }
    queryImage :=
      { filename := basename queryData.imagePath
        faceDetected := queryData.faceDetected
        detectionScore := queryData.detectionScore
        faceFile := queryData.faceFile
        coordinates := queryData.coordinates
        imageDimensions := queryData.imageDimensions }
    outputDirectory := basename outputDir }

/-- The value returned by `extractAndSaveFace` (verify.js lines 87–92). -/
structure FaceData where
  filename : String
  path : String
  coordinates : IntBox
  detectionScore : ℚ
deriving DecidableEq

/-- `extractAndSaveFace` (verify.js lines 56–93): compute the zoomed-out
crop box, write the crop to `face_<imageName>.jpg` in the output
directory (the pixel copy/encode is external; its observable effect is
the file write), and return the artifact metadata. -/
def extractAndSaveFace (cfg : Config) (image : Image) (detection : FaceResult)
    (imageName outputDir : String) : FaceData × List Event :=
  let zoomedBox := calculateZoomedOutBox detection.detection.box cfg.zoomOutFactor
    image.width image.height
  let faceFilename := "face_" ++ imageName ++ ".jpg"
  let facePath := joinPath outputDir faceFilename
  ({ filename := faceFilename
     path := facePath
     coordinates := zoomedBox
     detectionScore := detection.detection.score },
   [Event.writeFile facePath])

/-- `drawFaceDetection` (verify.js lines 141–167): the canvas drawing is
external pixel work; the observable effect is the single file write of the
overlay image. -/
def drawFaceDetection (image : Image) (detection : FaceResult)
    (outputPath : String) : List Event :=
  [Event.writeFile outputPath]

/-- `saveVerificationReport` (verify.js lines 135–139): serialize the
report to `<verificationId>.json` inside the output directory and return
the report path. -/
def saveVerificationReport (report : VerificationReport) (outputDir : String) :
    String × List Event :=
  (joinPath outputDir (report.verificationId ++ ".json"),
   [Event.writeReport report])

/-- The value returned by `runVerification` on success
(verify.js lines 268–278). -/
structure RunResult where
  isMatch : Bool
  faceDistance : ℚ
  confidence : ℚ
  referenceScore : ℚ
  queryScore : ℚ
  reportPath : String
  referenceFace : String
  queryFace : String
  outputDir : String
deriving DecidableEq

/-- `runVerification` (verify.js lines 169–279), returning the JS result
(or the thrown error) together with the trace of observable effects in
program order. -/
def runVerification (cfg : Config) (env : Env)
    (referenceImagePath queryImagePath outputDir : String) :
    Except VerifyError RunResult × List Event :=
  if !env.fileExists referenceImagePath then
    (.error (.referenceNotFound referenceImagePath), [])
  else if !env.fileExists queryImagePath then
    (.error (.queryNotFound queryImagePath), [])
  else
    match env.loadImage referenceImagePath with
    | none => (.error (.referenceLoadFailed referenceImagePath),
        [Event.decode referenceImagePath])
    | some referenceImage =>
      match env.loadImage queryImagePath with
      | none => (.error (.queryLoadFailed queryImagePath),
          [Event.decode referenceImagePath, Event.decode queryImagePath])
      | some queryImage =>
        let evs := [Event.decode referenceImagePath, Event.decode queryImagePath,
          Event.detect referenceImagePath, Event.detect queryImagePath]
        match env.detectFace referenceImage with
        | none => (.error .noFaceInReference, evs)
        | some referenceResult =>
          match env.detectFace queryImage with
          | none => (.error .noFaceInQuery, evs)
          | some queryResult =>
            if referenceResult.detection.score < cfg.faceQuality then
              (.error (.lowScoreReference referenceResult.detection.score), evs)
            else if queryResult.detection.score < cfg.faceQuality then
              (.error (.lowScoreQuery queryResult.detection.score), evs)
            else
              let faceDistance :=
                env.euclideanDist referenceResult.descriptor queryResult.descriptor
              let isMatch : Bool := decide (faceDistance < cfg.distanceThreshold)
              let referenceFaceExtract :=
                extractAndSaveFace cfg referenceImage referenceResult "reference" outputDir
              let queryFaceExtract :=
                extractAndSaveFace cfg queryImage queryResult "query" outputDir
              let overlayRefEvents := drawFaceDetection referenceImage referenceResult
                (joinPath outputDir "reference_detection.jpg")
              let overlayQueryEvents := drawFaceDetection queryImage queryResult
                (joinPath outputDir "query_detection.jpg")
              let reportData := generateVerificationReport cfg env
                { imagePath := referenceImagePath
                  faceDetected := true
                  detectionScore := referenceResult.detection.score
                  faceFile := referenceFaceExtract.1.filename
                  coordinates := referenceFaceExtract.1.coordinates
                  imageDimensions := ⟨referenceImage.width, referenceImage.height⟩ }
                { imagePath := queryImagePath
                  faceDetected := true
                  detectionScore := queryResult.detection.score
                  faceFile := queryFaceExtract.1.filename
                  coordinates := queryFaceExtract.1.coordinates
                  imageDimensions := ⟨queryImage.width, queryImage.height⟩ }
                faceDistance isMatch outputDir
              let savedReport := saveVerificationReport reportData outputDir
              (.ok
                { isMatch := isMatch
                  faceDistance := faceDistance
                  confidence := reportData.result.confidence
                  referenceScore := referenceResult.detection.score
                  queryScore := queryResult.detection.score
                  reportPath := savedReport.1
                  referenceFace := referenceFaceExtract.1.filename
                  queryFace := queryFaceExtract.1.filename
                  outputDir := outputDir },
               evs ++ referenceFaceExtract.2 ++ queryFaceExtract.2 ++
                 overlayRefEvents ++ overlayQueryEvents ++ savedReport.2)

/-- Characterization of any report appearing in a run's event trace: it is
only emitted on the all-stages-succeeded path, with both image sections
marked detected, the fixed crop filenames, and the decision fields
computed from the face distance and the configured threshold. -/
lemma writeReport_mem_spec (cfg : Config) (env : Env)
    (referenceImagePath queryImagePath outputDir : String)
    (rep : VerificationReport)
    (hmem : Event.writeReport rep ∈
      (runVerification cfg env referenceImagePath queryImagePath outputDir).snd) :
    (∃ res, (runVerification cfg env referenceImagePath queryImagePath outputDir).fst =
      Except.ok res) ∧
    rep.referenceImage.faceDetected = true ∧
    rep.queryImage.faceDetected = true ∧
    rep.referenceImage.faceFile = "face_reference.jpg" ∧
    rep.queryImage.faceFile = "face_query.jpg" ∧
    rep.result.threshold = cfg.distanceThreshold ∧
    rep.result.isMatch = decide (rep.result.faceDistance < cfg.distanceThreshold) ∧
    rep.result.confidence = max 0 (1 - rep.result.faceDistance / cfg.distanceThreshold) ∧
    rep.result.status = (if rep.result.isMatch then "VERIFIED" else "REJECTED") := by
  rcases h : runVerification cfg env referenceImagePath queryImagePath outputDir with ⟨res, evs⟩
  rw [h] at hmem
  simp only [runVerification] at h
  split at h
  · injection h with h1 h2; subst h1; subst h2; simp at hmem
  · split at h
    · injection h with h1 h2; subst h1; subst h2; simp at hmem
    · split at h
      · injection h with h1 h2; subst h1; subst h2; simp at hmem
      · split at h
        · injection h with h1 h2; subst h1; subst h2; simp at hmem
        · split at h
          · injection h with h1 h2; subst h1; subst h2; simp at hmem
          · split at h
            · injection h with h1 h2; subst h1; subst h2; simp at hmem
            · split at h
              · injection h with h1 h2; subst h1; subst h2; simp at hmem
              · split at h
                · injection h with h1 h2; subst h1; subst h2; simp at hmem
                · injection h with h1 h2; subst h1; subst h2
                  simp only [extractAndSaveFace, saveVerificationReport,
                    drawFaceDetection] at hmem
                  simp at hmem
                  subst hmem
                  refine ⟨⟨_, rfl⟩, ?_⟩
                  simp [generateVerificationReport]

/-- C1: every VerificationResult persisted by the pipeline has
`isMatch = (faceDistance < threshold)` with strict inequality (a distance
exactly equal to the threshold gives `isMatch = false`), and `status` is
fully determined by `isMatch`: `"VERIFIED"` iff `isMatch`, `"REJECTED"`
iff not. -/
theorem pipeline_isMatch_status (cfg : Config) (env : Env)
    (referenceImagePath queryImagePath outputDir : String) (rep : VerificationReport)
    (hmem : Event.writeReport rep ∈
      (runVerification cfg env referenceImagePath queryImagePath outputDir).snd)
    (hd : 0 ≤ rep.result.faceDistance) (ht : 0 < cfg.distanceThreshold) :
    (rep.result.isMatch = true ↔ rep.result.faceDistance < rep.result.threshold) ∧
    (rep.result.faceDistance = rep.result.threshold → rep.result.isMatch = false) ∧
    (rep.result.status = "VERIFIED" ↔ rep.result.isMatch = true) ∧
    (rep.result.status = "REJECTED" ↔ rep.result.isMatch = false) := by
  obtain ⟨-, -, -, -, -, hthr, hmatch, hconf, hstat⟩ :=
    writeReport_mem_spec cfg env referenceImagePath queryImagePath outputDir rep hmem
  refine ⟨?_, ?_, ?_, ?_⟩
  · rw [hmatch, hthr]
    exact decide_eq_true_iff
  · intro heq
    rw [hmatch]
    exact decide_eq_false (by rw [heq, hthr]; exact lt_irrefl _)
  · rw [hstat]
    cases hm : rep.result.isMatch <;> decide
  · rw [hstat]
    cases hm : rep.result.isMatch <;> decide

/-- A concrete decoded image used to exercise the pipeline. -/
def imgTest : Image := ⟨100, 100⟩

/-- A concrete detection result with score exactly at the configured
quality minimum. -/
def faceTest : FaceResult :=
  { detection := { box := ⟨10, 10, 20, 20⟩, score := 0.8 }
    landmarks := []
    descriptor := [0, 0] }

/-- An environment in which every pipeline stage succeeds. -/
def envTest : Env :=
  { fileExists := fun _ => true
    loadImage := fun _ => some imgTest
    detectFace := fun _ => some faceTest
    euclideanDist := fun _ _ => 0
    isoTimestamp := "2026-01-01T00:00:00.000Z"
    nowMillis := 1 }

/-- The report that a run of the pipeline under `envTest` emits. -/
def repTest : VerificationReport :=
  generateVerificationReport CONFIG envTest
    { imagePath := "ref.jpg"
      faceDetected := true
      detectionScore := faceTest.detection.score
      faceFile := (extractAndSaveFace CONFIG imgTest faceTest "reference" "outdir").1.filename
      coordinates := (extractAndSaveFace CONFIG imgTest faceTest "reference" "outdir").1.coordinates
      imageDimensions := ⟨imgTest.width, imgTest.height⟩ }
    { imagePath := "query.jpg"
      faceDetected := true
      detectionScore := faceTest.detection.score
      faceFile := (extractAndSaveFace CONFIG imgTest faceTest "query" "outdir").1.filename
      coordinates := (extractAndSaveFace CONFIG imgTest faceTest "query" "outdir").1.coordinates
      imageDimensions := ⟨imgTest.width, imgTest.height⟩ }
    (envTest.euclideanDist faceTest.descriptor faceTest.descriptor)
    (decide (envTest.euclideanDist faceTest.descriptor faceTest.descriptor <
      CONFIG.distanceThreshold))
    "outdir"

lemma repTest_mem : Event.writeReport repTest ∈
    (runVerification CONFIG envTest "ref.jpg" "query.jpg" "outdir").snd := by
  have hq : ¬ (faceTest.detection.score < CONFIG.faceQuality) := by
    norm_num [faceTest, CONFIG]
  simp [runVerification, envTest, hq, repTest, extractAndSaveFace,
    drawFaceDetection, saveVerificationReport]

lemma repTest_faceDistance : repTest.result.faceDistance = 0 := by
  simp [repTest, generateVerificationReport, envTest]

/-- C1 witness: the decision/status theorem applied to the report of a
concrete successful run. -/
theorem pipeline_isMatch_status_witness :
    Event.writeReport repTest ∈
      (runVerification CONFIG envTest "ref.jpg" "query.jpg" "outdir").snd ∧
    0 ≤ repTest.result.faceDistance ∧ 0 < CONFIG.distanceThreshold ∧
    ((repTest.result.isMatch = true ↔
        repTest.result.faceDistance < repTest.result.threshold) ∧
     (repTest.result.faceDistance = repTest.result.threshold →
        repTest.result.isMatch = false) ∧
     (repTest.result.status = "VERIFIED" ↔ repTest.result.isMatch = true) ∧
     (repTest.result.status = "REJECTED" ↔ repTest.result.isMatch = false)) :=
  ⟨repTest_mem, le_of_eq repTest_faceDistance.symm, by norm_num [CONFIG],
    pipeline_isMatch_status CONFIG envTest "ref.jpg" "query.jpg" "outdir" repTest
      repTest_mem (le_of_eq repTest_faceDistance.symm) (by norm_num [CONFIG])⟩

/-- C2: the confidence of every persisted report equals
`max 0 (1 - faceDistance / threshold)`; for `faceDistance ≥ 0` and
threshold `> 0` it lies in `[0, 1]`, is `0` whenever
`faceDistance ≥ threshold`, and is `1` iff `faceDistance = 0`. -/
theorem pipeline_confidence_bounds (cfg : Config) (env : Env)
    (referenceImagePath queryImagePath outputDir : String) (rep : VerificationReport)
    (hmem : Event.writeReport rep ∈
      (runVerification cfg env referenceImagePath queryImagePath outputDir).snd)
    (hd : 0 ≤ rep.result.faceDistance) (ht : 0 < cfg.distanceThreshold) :
    rep.result.confidence =
      max 0 (1 - rep.result.faceDistance / rep.result.threshold) ∧
    0 ≤ rep.result.confidence ∧ rep.result.confidence ≤ 1 ∧
    (rep.result.threshold ≤ rep.result.faceDistance → rep.result.confidence = 0) ∧
    (rep.result.confidence = 1 ↔ rep.result.faceDistance = 0) := by
  obtain ⟨-, -, -, -, -, hthr, -, hconf, -⟩ :=
    writeReport_mem_spec cfg env referenceImagePath queryImagePath outputDir rep hmem
  rw [hthr] at *
  refine ⟨hconf, ?_, ?_, ?_, ?_⟩
  · rw [hconf]; exact le_max_left _ _
  · rw [hconf]
    have h0 : 0 ≤ rep.result.faceDistance / cfg.distanceThreshold :=
      div_nonneg hd ht.le
    exact max_le (by norm_num) (by linarith)
  · intro hge
    rw [hconf]
    apply max_eq_left
    have h1 : 1 ≤ rep.result.faceDistance / cfg.distanceThreshold :=
      (one_le_div ht).2 hge
    linarith
  · rw [hconf]
    constructor
    · intro h1
      by_contra hne
      have hdpos : 0 < rep.result.faceDistance := lt_of_le_of_ne hd (Ne.symm hne)
      have hq : 0 < rep.result.faceDistance / cfg.distanceThreshold := div_pos hdpos ht
      have : max 0 (1 - rep.result.faceDistance / cfg.distanceThreshold) < 1 :=
        max_lt_iff.2 ⟨by norm_num, by linarith⟩
      exact absurd h1 (ne_of_lt this)
    · intro h0
      rw [h0]
      norm_num

/-- C2 witness: the confidence theorem applied to the report of a
concrete successful run. -/
theorem pipeline_confidence_bounds_witness :
    Event.writeReport repTest ∈
      (runVerification CONFIG envTest "ref.jpg" "query.jpg" "outdir").snd ∧
    0 ≤ repTest.result.faceDistance ∧ 0 < CONFIG.distanceThreshold ∧
    (repTest.result.confidence =
       max 0 (1 - repTest.result.faceDistance / repTest.result.threshold) ∧
     0 ≤ repTest.result.confidence ∧ repTest.result.confidence ≤ 1 ∧
     (repTest.result.threshold ≤ repTest.result.faceDistance →
        repTest.result.confidence = 0) ∧
     (repTest.result.confidence = 1 ↔ repTest.result.faceDistance = 0)) :=
  ⟨repTest_mem, le_of_eq repTest_faceDistance.symm, by norm_num [CONFIG],
    pipeline_confidence_bounds CONFIG envTest "ref.jpg" "query.jpg" "outdir" repTest
      repTest_mem (le_of_eq repTest_faceDistance.symm) (by norm_num [CONFIG])⟩

/-- C4: a failing run never emits a report write, and any report a run
does write comes with an `ok` outcome, both `faceDetected` fields `true`,
and non-empty crop filenames. -/
theorem pipeline_no_partial_report (cfg : Config) (env : Env)
    (referenceImagePath queryImagePath outputDir : String) :
    (∀ e, (runVerification cfg env referenceImagePath queryImagePath outputDir).fst =
        Except.error e →
      ∀ rep, Event.writeReport rep ∉
        (runVerification cfg env referenceImagePath queryImagePath outputDir).snd) ∧
    (∀ rep, Event.writeReport rep ∈
        (runVerification cfg env referenceImagePath queryImagePath outputDir).snd →
      (∃ res, (runVerification cfg env referenceImagePath queryImagePath outputDir).fst =
        Except.ok res) ∧
      rep.referenceImage.faceDetected = true ∧
      rep.queryImage.faceDetected = true ∧
      rep.referenceImage.faceFile ≠ "" ∧
      rep.queryImage.faceFile ≠ "") := by
  constructor
  · intro e herr rep hmem
    obtain ⟨⟨res, hok⟩, -⟩ :=
      writeReport_mem_spec cfg env referenceImagePath queryImagePath outputDir rep hmem
    rw [herr] at hok
    exact Except.noConfusion hok
  · intro rep hmem
    obtain ⟨hok, h1, h2, h3, h4, -⟩ :=
      writeReport_mem_spec cfg env referenceImagePath queryImagePath outputDir rep hmem
    refine ⟨hok, h1, h2, ?_, ?_⟩
    · rw [h3]; decide
    · rw [h4]; decide

/-- C4 witness: the persistence theorem applied to a concrete successful
run and its emitted report. -/
theorem pipeline_no_partial_report_witness :
    Event.writeReport repTest ∈
      (runVerification CONFIG envTest "ref.jpg" "query.jpg" "outdir").snd ∧
    ((∃ res, (runVerification CONFIG envTest "ref.jpg" "query.jpg" "outdir").fst =
        Except.ok res) ∧
     repTest.referenceImage.faceDetected = true ∧
     repTest.queryImage.faceDetected = true ∧
     repTest.referenceImage.faceFile ≠ "" ∧
     repTest.queryImage.faceFile ≠ "") :=
  ⟨repTest_mem,
    (pipeline_no_partial_report CONFIG envTest "ref.jpg" "query.jpg" "outdir").2
      repTest repTest_mem⟩

/-- C7: when the query image path does not exist the run fails
immediately with an input-not-found error carrying the offending path
(the reference one if that is also missing, since it is checked first),
the error is `queryNotFound` whenever the reference path does exist, and
the event trace is empty: nothing is decoded, no detection is attempted,
and no file — in particular no report — is written. -/
theorem missing_query_fails_fast (cfg : Config) (env : Env)
    (referenceImagePath queryImagePath outputDir : String)
    (hq : env.fileExists queryImagePath = false) :
    (∃ e, (runVerification cfg env referenceImagePath queryImagePath outputDir).fst =
        Except.error e ∧
      (e = VerifyError.queryNotFound queryImagePath ∨
       e = VerifyError.referenceNotFound referenceImagePath)) ∧
    (env.fileExists referenceImagePath = true →
      (runVerification cfg env referenceImagePath queryImagePath outputDir).fst =
        Except.error (VerifyError.queryNotFound queryImagePath)) ∧
    (runVerification cfg env referenceImagePath queryImagePath outputDir).snd = [] := by
  cases hr : env.fileExists referenceImagePath
  · refine ⟨⟨VerifyError.referenceNotFound referenceImagePath, ?_, Or.inr rfl⟩, ?_, ?_⟩
    · simp [runVerification, hr]
    · intro h
      exact Bool.noConfusion h
    · simp [runVerification, hr]
  · refine ⟨⟨VerifyError.queryNotFound queryImagePath, ?_, Or.inl rfl⟩, fun _ => ?_, ?_⟩ <;>
      simp [runVerification, hr, hq]

/-- An environment in which only the reference image path exists. -/
def envMissingQuery : Env :=
  { envTest with fileExists := fun p => p == "ref.jpg" }

/-- C7 witness: the fail-fast theorem applied to a concrete environment
whose query path does not exist. -/
theorem missing_query_fails_fast_witness :
    envMissingQuery.fileExists "missing.jpg" = false ∧
    ((∃ e, (runVerification CONFIG envMissingQuery "ref.jpg" "missing.jpg" "outdir").fst =
        Except.error e ∧
       (e = VerifyError.queryNotFound "missing.jpg" ∨
        e = VerifyError.referenceNotFound "ref.jpg")) ∧
     (envMissingQuery.fileExists "ref.jpg" = true →
       (runVerification CONFIG envMissingQuery "ref.jpg" "missing.jpg" "outdir").fst =
         Except.error (VerifyError.queryNotFound "missing.jpg")) ∧
     (runVerification CONFIG envMissingQuery "ref.jpg" "missing.jpg" "outdir").snd = []) :=
  ⟨rfl, missing_query_fails_fast CONFIG envMissingQuery "ref.jpg" "missing.jpg" "outdir" rfl⟩

/-- C9: under successful decode and detection of both images, the
low-detection-score error for the reference image is raised iff its score
is strictly below `faceQuality`; when the reference passes, the query
error is raised iff the query score is strictly below `faceQuality`; and
when both scores are `≥ faceQuality` — in particular when exactly equal —
the run succeeds. -/
theorem quality_gate_strict (cfg : Config) (env : Env)
    (referenceImagePath queryImagePath outputDir : String)
    (imgR imgQ : Image) (dr dq : FaceResult)
    (hfr : env.fileExists referenceImagePath = true)
    (hfq : env.fileExists queryImagePath = true)
    (hlr : env.loadImage referenceImagePath = some imgR)
    (hlq : env.loadImage queryImagePath = some imgQ)
    (hdr : env.detectFace imgR = some dr)
    (hdq : env.detectFace imgQ = some dq) :
    ((runVerification cfg env referenceImagePath queryImagePath outputDir).fst =
        Except.error (VerifyError.lowScoreReference dr.detection.score) ↔
      dr.detection.score < cfg.faceQuality) ∧
    (cfg.faceQuality ≤ dr.detection.score →
      ((runVerification cfg env referenceImagePath queryImagePath outputDir).fst =
          Except.error (VerifyError.lowScoreQuery dq.detection.score) ↔
        dq.detection.score < cfg.faceQuality)) ∧
    (cfg.faceQuality ≤ dr.detection.score → cfg.faceQuality ≤ dq.detection.score →
      ∃ res, (runVerification cfg env referenceImagePath queryImagePath outputDir).fst =
        Except.ok res) := by
  by_cases h1 : dr.detection.score < cfg.faceQuality
  · refine ⟨?_, fun h2 => absurd h1 (not_lt.2 h2), fun h2 _ => absurd h1 (not_lt.2 h2)⟩
    simp [runVerification, hfr, hfq, hlr, hlq, hdr, hdq, h1]
  · by_cases h2 : dq.detection.score < cfg.faceQuality
    · refine ⟨?_, fun _ => ?_, fun _ h3 => absurd h2 (not_lt.2 h3)⟩
      · simp [runVerification, hfr, hfq, hlr, hlq, hdr, hdq, h1, h2]
      · simp [runVerification, hfr, hfq, hlr, hlq, hdr, hdq, h1, h2]
    · refine ⟨?_, fun _ => ?_, fun _ _ => ?_⟩
      · simp [runVerification, hfr, hfq, hlr, hlq, hdr, hdq, h1, h2]
      · simp [runVerification, hfr, hfq, hlr, hlq, hdr, hdq, h1, h2]
      · simp [runVerification, hfr, hfq, hlr, hlq, hdr, hdq, h1, h2]

/-- C9 witness: the quality-gate theorem applied to a concrete run whose
detection scores are exactly equal to the configured minimum `0.8`, which
therefore passes the gate and succeeds. -/
theorem quality_gate_strict_witness :
    envTest.fileExists "ref.jpg" = true ∧
    envTest.fileExists "query.jpg" = true ∧
    envTest.loadImage "ref.jpg" = some imgTest ∧
    envTest.loadImage "query.jpg" = some imgTest ∧
    envTest.detectFace imgTest = some faceTest ∧
    (((runVerification CONFIG envTest "ref.jpg" "query.jpg" "outdir").fst =
        Except.error (VerifyError.lowScoreReference faceTest.detection.score) ↔
      faceTest.detection.score < CONFIG.faceQuality) ∧
    (CONFIG.faceQuality ≤ faceTest.detection.score →
      ((runVerification CONFIG envTest "ref.jpg" "query.jpg" "outdir").fst =
          Except.error (VerifyError.lowScoreQuery faceTest.detection.score) ↔
        faceTest.detection.score < CONFIG.faceQuality)) ∧
    (CONFIG.faceQuality ≤ faceTest.detection.score →
     CONFIG.faceQuality ≤ faceTest.detection.score →
      ∃ res, (runVerification CONFIG envTest "ref.jpg" "query.jpg" "outdir").fst =
        Except.ok res)) :=
  ⟨rfl, rfl, rfl, rfl, rfl,
    quality_gate_strict CONFIG envTest "ref.jpg" "query.jpg" "outdir"
      imgTest imgTest faceTest faceTest rfl rfl rfl rfl rfl rfl⟩

end FaceVerifier
